import Mathlib

/-!
Verification of the `c_tdd` repository's port layer and CLI glue.

The AVR port layer (`src/include/port.h`) supplies critical-section
macros (inline assembly saving/restoring SREG), compile-time tick-rate
constants, and declarations of the tick-clock operations.  The CLI
program is `src/src/prodmain.c`.  The implementations of the tick
counter, its interrupt handler, `port_get_tick`, `idle_wait_interrupt`
and `add` are not in the sources; where a property depends on them they
are modelled from the specification, as marked on each definition.
-/

namespace CTdd

/-- Machine state of the embedding: the AVR SREG status register
(8 bits; bit 7 is the global interrupt-enable flag I), the 32-bit tick
counter, and whether the timer-overflow interrupt is armed. -/
structure Sys where
  sreg : Nat
  tick : Nat
  timerArmed : Bool
  deriving Repr, DecidableEq

/-- Bit 7 of SREG is the global interrupt-enable flag. -/
def interruptsEnabled (s : Sys) : Bool :=
  s.sreg.testBit 7

/-- `INTERRUPTS_DISABLE()` — the `cli` instruction clears the I flag
(bit 7 of SREG). -/
def INTERRUPTS_DISABLE (s : Sys) : Sys :=
  { s with sreg := s.sreg &&& 0x7F }

/-- `INTERRUPTS_ENABLE()` — the `sei` instruction sets the I flag
(bit 7 of SREG). -/
def INTERRUPTS_ENABLE (s : Sys) : Sys :=
  { s with sreg := s.sreg ||| 0x80 }

/-- `CRITICAL_ENTER()` from `port.h`: `in %0, __SREG__` captures the
whole SREG into the local `__istate_val`, then `cli` clears the I flag.
Returns the captured value together with the new state. -/
def CRITICAL_ENTER (s : Sys) : Nat × Sys :=
  (s.sreg, { s with sreg := s.sreg &&& 0x7F })

/-- `CRITICAL_EXIT()` from `port.h`: `out __SREG__, %0` writes the saved
`__istate_val` back into SREG. -/
def CRITICAL_EXIT (saved : Nat) (s : Sys) : Sys :=
  { s with sreg := saved }

/-- Modelled from the spec: the timer-interrupt `handler()` (not under
`src/`; only declared via `port.h` and described in §4.2) increments the
32-bit tick counter by one, wrapping modulo 2^32 (`tick_t` is
`uint32_t`). -/
def tick_handler (s : Sys) : Sys :=
  { s with tick := (s.tick + 1) % 2 ^ 32 }

/-- Hardware delivery of one timer interrupt: the handler runs only when
interrupts are globally enabled and the timer interrupt is armed. -/
def deliverTick (s : Sys) : Sys :=
  if interruptsEnabled s && s.timerArmed then tick_handler s else s

/-- Modelled from the spec: `port_get_tick` / `now()` (implementation
not under `src/`; declared in `port.h`) returns the current counter
value, wrapping the read in the critical-section primitive (§4.2).
Returns the value together with the post-state. -/
def port_get_tick (s : Sys) : Nat × Sys :=
  let p := CRITICAL_ENTER s
  let v := p.2.tick
  (v, CRITICAL_EXIT p.1 p.2)

/-- Modelled from the spec: `port_init` (implementation not under
`src/`; declared in `port.h`) configures the timer/prescaler and leaves
the tick interrupt disabled (§4.2). -/
def port_init (s : Sys) : Sys :=
  { s with timerArmed := false }

/-- Modelled from the spec: `port_enable_tick_interrupt` (implementation
not under `src/`; declared in `port.h`) arms the timer interrupt
(§4.2). -/
def port_enable_tick_interrupt (s : Sys) : Sys :=
  { s with timerArmed := true }

/-- `tick_t` is `uint32_t` and `difftick_t` is `int32_t` (`port.h`):
reinterpret a 32-bit unsigned value as a signed 32-bit value. -/
def toDifftick (x : Nat) : Int :=
  if x % 2 ^ 32 < 2 ^ 31 then (x % 2 ^ 32 : Nat) else (x % 2 ^ 32 : Nat) - 2 ^ 32

/-- Wraparound-correct tick delta: the subtraction `t2 - t1` computed in
the unsigned 32-bit `tick_t` (two's-complement wrap) and reinterpreted
as the signed 32-bit `difftick_t`.  Arguments are 32-bit values. -/
def tickDelta (t1 t2 : Nat) : Int :=
  toDifftick ((t2 + (2 ^ 32 - t1 % 2 ^ 32)) % 2 ^ 32)

/-- `#define F_CPU 16000000` (`port.h`). -/
def F_CPU : ℚ := 16000000

/-- `#define TIMER_PRESCALER 64` (`port.h`). -/
def TIMER_PRESCALER : ℚ := 64

/-- `#define TICK_PERIOD (256.0 * TIMER_PRESCALER / F_CPU)` (`port.h`);
the double-precision expression modelled in exact rational
arithmetic. -/
def TICK_PERIOD : ℚ := 256 * TIMER_PRESCALER / F_CPU

/-- `#define TICKS_PER_SECOND ((tick_t)(1.0 / TICK_PERIOD + 0.5))`
(`port.h`); the cast of the positive double to `tick_t` truncates
toward zero, i.e. takes the floor. -/
def TICKS_PER_SECOND : Nat :=
  (⌊1 / TICK_PERIOD + 1 / 2⌋ : ℤ).toNat

/-- Modelled from the spec: `idle_wait_interrupt` (implementation not
under `src/`; declared in `port.h`) blocks until the next interrupt
(§4.3).  With only the timer armed, firing at every multiple of
`period`, a call at time `t` returns at the first multiple of `period`
strictly after `t`. -/
def idleWaitReturnTime (period t : Nat) : Nat :=
  (t / period + 1) * period

/-- C-locale `isspace`, used by `atoi` to skip leading whitespace. -/
def isSpaceC (c : Char) : Bool :=
  c = ' ' || c = '\t' || c = '\n' || c = '\x0b' || c = '\x0c' || c = '\r'

/-- Drop leading C whitespace from a character list. -/
def skipSpaces : List Char → List Char
  | [] => []
  | c :: cs => if isSpaceC c then skipSpaces cs else c :: cs

/-- Accumulate a run of leading decimal digits, stopping at the first
non-digit. -/
def readDigits : List Char → Int → Int
  | [], acc => acc
  | c :: cs, acc =>
      if c.isDigit then readDigits cs (10 * acc + ((c.toNat : Int) - 48)) else acc

/-- C `atoi`: skip whitespace, read an optional sign, then a run of
digits; a string with no leading digits yields 0. -/
def atoi (s : String) : Int :=
  match skipSpaces s.data with
  | '-' :: cs => - readDigits cs 0
  | '+' :: cs => readDigits cs 0
  | cs => readDigits cs 0

/-- Modelled from the spec: `add` (declared in `add.h`, implementation
not under `src/`; the spec calls the program an integer-addition
utility and its tests assert `add(1, 2) == 3` etc.) is integer
addition. -/
def add (a b : Int) : Int :=
  a + b

/-- The usage error printed to `stderr` by `main` in `prodmain.c` when
`argc != 3`. -/
def usageMsg (prog : String) : String :=
  "Usage: " ++ prog ++ " A B\n" ++ "ERROR: expected two arguments\n"

/-- The argument-handling body of `main` in `prodmain.c` (non-AVR
build): given `argv`, returns the process exit code, the text written
to `stdout`, and the text written to `stderr`. -/
def cMain (argv : List String) : Nat × String × String :=
  if argv.length = 3 then
    let a := atoi (argv.getD 1 "")
    let b := atoi (argv.getD 2 "")
    (0, toString (add a b) ++ "\n", "")
  else
    (1, "", usageMsg (argv.getD 0 ""))

/-- `main` in `prodmain.c` under `__AVR__`: before the argument check it
overwrites `argc`/`argv` with the fixed vector `{"exec", "1", "2"}`, so
the received command line is ignored. -/
def cMainAvr (_argv : List String) : Nat × String × String :=
  cMain ["exec", "1", "2"]

/-- Formalisation of the spec's phrase "numeric argument": a non-empty
string of decimal digits after an optional sign. -/
def isNumericString (s : String) : Bool :=
  match s.data with
  | [] => false
  | '-' :: cs => !cs.isEmpty && cs.all Char.isDigit
  | '+' :: cs => !cs.isEmpty && cs.all Char.isDigit
  | cs => cs.all Char.isDigit

/-! ## Helper lemmas -/

/-- Iterating interrupt delivery with interrupts enabled and the timer
armed adds one tick per delivery, modulo 2^32. -/
theorem deliverTick_iterate (s : Sys) (N : Nat) (h1 : s.tick < 2 ^ 32)
    (h2 : interruptsEnabled s = true) (h3 : s.timerArmed = true) :
    deliverTick^[N] s = { s with tick := (s.tick + N) % 2 ^ 32 } := by
  induction N with
  | zero =>
      simp only [Function.iterate_zero, id_eq]
      cases s
      simp_all
      omega
  | succ n ih =>
      rw [Function.iterate_succ_apply', ih]
      cases s with
      | mk sr tk ar =>
          simp only [deliverTick, tick_handler, interruptsEnabled] at *
          simp_all
          omega

/-! ## Claim theorems -/

/-- C5: with `F_CPU = 16000000` and `TIMER_PRESCALER = 64`, the
`TICKS_PER_SECOND` macro (truncation of `1/TICK_PERIOD + 0.5` to
`tick_t`, modelled in exact rational arithmetic) equals
`round(16000000 / (256 * 64)) = 977`. -/
theorem ticks_per_second_977 :
    TICKS_PER_SECOND = 977 ∧ round ((16000000 : ℚ) / (256 * 64)) = 977 := by
  constructor
  · unfold TICKS_PER_SECOND
    rw [show (⌊1 / TICK_PERIOD + 1 / 2⌋ : ℤ) = 977 from by
      norm_num [TICK_PERIOD, TIMER_PRESCALER, F_CPU]]
    rfl
  · norm_num [round_eq]

/-- C3: `CRITICAL_ENTER` captures the current SREG (hence the
interrupt-enable state) into the saved-state variable and disables
interrupts, touching nothing but the interrupt mask; `CRITICAL_EXIT`
restores exactly the captured state, touching nothing but the
interrupt mask. -/
theorem critical_enter_exit_contract (s : Sys) :
    (CRITICAL_ENTER s).1 = s.sreg ∧
    interruptsEnabled (CRITICAL_ENTER s).2 = false ∧
    (CRITICAL_ENTER s).2.tick = s.tick ∧
    (CRITICAL_ENTER s).2.timerArmed = s.timerArmed ∧
    (∀ t : Sys, CRITICAL_EXIT (CRITICAL_ENTER s).1 t = { t with sreg := s.sreg }) ∧
    (∀ v : Nat, ∀ t : Sys,
      (CRITICAL_EXIT v t).tick = t.tick ∧ (CRITICAL_EXIT v t).timerArmed = t.timerArmed) := by
  refine ⟨rfl, ?_, rfl, rfl, fun t => rfl, fun v t => ⟨rfl, rfl⟩⟩
  simp [CRITICAL_ENTER, interruptsEnabled, Nat.testBit_land,
    show Nat.testBit 127 7 = false from by decide]

/-- C2: for every initial state (interrupts enabled or disabled),
entering two nested critical sections and exiting them in LIFO order
leaves the machine state exactly as before the outer enter, and after
the inner exit interrupts are still disabled. -/
theorem critical_nesting_lifo (s : Sys) :
    interruptsEnabled
      (CRITICAL_EXIT (CRITICAL_ENTER (CRITICAL_ENTER s).2).1
        (CRITICAL_ENTER (CRITICAL_ENTER s).2).2) = false ∧
    CRITICAL_EXIT (CRITICAL_ENTER s).1
      (CRITICAL_EXIT (CRITICAL_ENTER (CRITICAL_ENTER s).2).1
        (CRITICAL_ENTER (CRITICAL_ENTER s).2).2) = s := by
  constructor
  · simp [CRITICAL_ENTER, CRITICAL_EXIT, interruptsEnabled, Nat.testBit_land,
      show Nat.testBit 127 7 = false from by decide]
  · rfl

/-- C1: for every initial state and every N, after N timer interrupts
delivered with interrupts enabled (and the timer armed) throughout, the
tick accessor returns the initial counter value plus N modulo 2^32. -/
theorem tick_counts_interrupts (s : Sys) (N : Nat) (h1 : s.tick < 2 ^ 32)
    (h2 : interruptsEnabled s = true) (h3 : s.timerArmed = true) :
    (port_get_tick (deliverTick^[N] s)).1 = (s.tick + N) % 2 ^ 32 := by
  rw [deliverTick_iterate s N h1 h2 h3]
  rfl

/-- Witness for C1: three interrupts from counter value 2^32 - 2 wrap
to 1. -/
theorem tick_counts_interrupts_witness :
    (⟨128, 4294967294, true⟩ : Sys).tick < 2 ^ 32 ∧
      interruptsEnabled ⟨128, 4294967294, true⟩ = true ∧
      (⟨128, 4294967294, true⟩ : Sys).timerArmed = true ∧
      (port_get_tick (deliverTick^[3] ⟨128, 4294967294, true⟩)).1 =
        ((⟨128, 4294967294, true⟩ : Sys).tick + 3) % 2 ^ 32 :=
  ⟨by norm_num, by decide, rfl,
    tick_counts_interrupts ⟨128, 4294967294, true⟩ 3 (by norm_num) (by decide) rfl⟩

/-- C7: after configuring the tick clock and arming its interrupt, the
tick accessor leaves the state unchanged, so two consecutive reads with
no interrupt delivered in between return the same value; neither
`port_init`, `port_enable_tick_interrupt` nor the accessor itself
changes the counter. -/
theorem now_twice_no_interrupt (s : Sys) :
    (port_get_tick (port_enable_tick_interrupt (port_init s))).2 =
      port_enable_tick_interrupt (port_init s) ∧
    (port_get_tick
        (port_get_tick (port_enable_tick_interrupt (port_init s))).2).1 =
      (port_get_tick (port_enable_tick_interrupt (port_init s))).1 ∧
    (port_init s).tick = s.tick ∧
    (port_enable_tick_interrupt s).tick = s.tick ∧
    (port_get_tick s).2.tick = s.tick :=
  ⟨rfl, rfl, rfl, rfl, rfl⟩

/-- C4 as stated is false: with t1 = 0 and K = 2^31 (which is < 2^32)
interrupts, the unsigned difference reinterpreted as `difftick_t` is
-2^31, not K. -/
theorem tick_delta_claim_cex :
    (2 ^ 31 : Nat) < 2 ^ 32 ∧
      tickDelta 0 ((0 + 2 ^ 31) % 2 ^ 32) ≠ ((2 ^ 31 : Nat) : Int) := by
  constructor
  · norm_num
  · decide

/-- C4 amended: for K < 2^31 (the non-negative range of `difftick_t`),
the wraparound-correct delta between a reading t1 and the reading after
K interrupts equals K, including across counter overflow. -/
theorem tick_delta_wraparound (t1 K : Nat) (h1 : t1 < 2 ^ 32) (h2 : K < 2 ^ 31) :
    tickDelta t1 ((t1 + K) % 2 ^ 32) = (K : Int) := by
  have e32 : (2 : ℕ) ^ 32 = 4294967296 := by norm_num
  have e31 : (2 : ℕ) ^ 31 = 2147483648 := by norm_num
  unfold tickDelta toDifftick
  rw [e32, e31] at *
  have hx : ((t1 + K) % 4294967296 + (4294967296 - t1 % 4294967296)) % 4294967296 = K := by
    omega
  rw [hx]
  have hK : K % 4294967296 = K := by omega
  rw [hK, if_pos (show K < 2147483648 from by omega)]

/-- Witness for C4 amended: reading t1 = 2^32 - 5 then 10 interrupts
later (the counter overflows in between) gives delta 10. -/
theorem tick_delta_wraparound_witness :
    (4294967291 : Nat) < 2 ^ 32 ∧ (10 : Nat) < 2 ^ 31 ∧
      tickDelta 4294967291 ((4294967291 + 10) % 2 ^ 32) = ((10 : Nat) : Int) :=
  ⟨by norm_num, by norm_num,
    tick_delta_wraparound 4294967291 10 (by norm_num) (by norm_num)⟩

/-- C6 as stated is false: with exactly two non-numeric arguments the
claim requires exit code 1, but `main` only checks `argc != 3` and
exits 0 after printing `add(atoi("x"), atoi("y"))`. -/
theorem cli_exit_code_claim_cex :
    ¬(((cMain ["exec", "x", "y"]).1 = 1) ↔
        ¬(isNumericString "x" = true ∧ isNumericString "y" = true)) := by
  decide

/-- C6 amended: the exit code is 0 when exactly two arguments (numeric
or not) are supplied and 1 otherwise; in the failure case the usage
error is printed to the error stream. -/
theorem cli_exit_codes (prog : String) (args : List String) :
    (cMain (prog :: args)).1 = (if args.length = 2 then 0 else 1) ∧
    (cMain (prog :: args)).2.2 = (if args.length = 2 then "" else usageMsg prog) := by
  by_cases h : args.length = 2
  · have h3 : (prog :: args).length = 3 := by simp [h]
    simp [cMain, h3, h]
  · have h3 : ¬(prog :: args).length = 3 := by simp; omega
    simp [cMain, h3, h]

/-- C9: in the AVR build, `main` replaces the received command line by
the fixed vector `{"exec", "1", "2"}` before the `argc` check, so for
every command line the usage-error branch is not taken: the exit branch
value is 0 and nothing is written to the error stream. -/
theorem avr_usage_branch_unreachable (argv : List String) :
    (cMainAvr argv).1 = 0 ∧ (cMainAvr argv).2.2 = "" :=
  ⟨rfl, rfl⟩

/-- C10: on the non-AVR build, with exactly two argument strings of any
content, `main` parses them with `atoi`, prints `add` of the parsed
values followed by a newline on stdout, writes nothing to stderr and
exits 0; `atoi` yields 0 on a non-numeric string such as "foo". -/
theorem cli_two_args_success (prog a b : String) :
    cMain [prog, a, b] = (0, toString (add (atoi a) (atoi b)) ++ "\n", "") ∧
      atoi "foo" = 0 := by
  constructor
  · simp [cMain, List.getD]
  · decide

/-- C8: when the timer fires every `period > 0` time units, a call to
the idle-wait primitive at any time t returns, and does so within one
tick period. -/
theorem idle_wait_returns_within_period (period t : Nat) (hp : 0 < period) :
    t < idleWaitReturnTime period t ∧ idleWaitReturnTime period t - t ≤ period := by
  have hd : t / period * period + t % period = t := Nat.div_add_mod' t period
  have hm : t % period < period := Nat.mod_lt t hp
  unfold idleWaitReturnTime
  rw [Nat.add_mul, one_mul]
  omega

/-- Witness for C8: with the 977 Hz-derived period and call time 1000,
the idle wait returns within one period. -/
theorem idle_wait_returns_within_period_witness :
    0 < 977 ∧ (1000 < idleWaitReturnTime 977 1000 ∧
      idleWaitReturnTime 977 1000 - 1000 ≤ 977) :=
  ⟨by decide, idle_wait_returns_within_period 977 1000 (by decide)⟩

end CTdd
